import Mathlib

/-!
Shallow embedding of `packages/core/src/render3/component.ts`: the component
host runtime (bootstrap, render context stack, change detection, dirty
scheduling, view-handle destroy lifecycle).

The runtime-global mutable state of the source (the `isDirty` flag, the
current view of the render context stack, and the hidden `NG_HOST_SYMBOL`
back-reference association on instances) is modelled as an explicit state
record `RT` threaded through every operation, with the back-references as an
explicit side table keyed by instance identity, following section 9 of the
specification. The build-time global `ngDevMode` and the external
collaborators from `instructions.ts` (host locator, renderer factory, view
instruction interpreter) are gathered in an environment record `Env`.

Fallible operations return their post-state together with an
`Except Err result`: a thrown JS error is `Except.error`, and the state
component records exactly the mutations performed before the throw.
-/

set_option autoImplicit false

namespace Render3

/-- Opaque native surface handle (an `RElement` of the source). -/
abbrev RElement := Nat

/-- Identity of a component instance produced by a factory.  The source lets
factories return arbitrary values and attaches a hidden back-reference to
them; the model tracks instances by identity only. -/
abbrev Inst := Nat

/-- Errors a runtime operation can surface, one constructor per failure mode
of the source (see section 7 of the specification). -/
inductive Err where
  /-- Host surface cannot be located (`HostResolutionError`). -/
  | hostResolution
  /-- The component factory `componentDef.n()` raised; propagated verbatim. -/
  | factoryError
  /-- A diagnostics-build `assertNotNull` assertion failed. -/
  | assertionError
  /-- `createError` with the not-a-directive-instance message: detection
  attempted on a value never bootstrapped by this runtime
  (`NotAHostInstanceError`). -/
  | notAHostInstance
  /-- A JS `TypeError` from reading a property of `undefined` or `null`. -/
  | typeError
  /-- `notImplemented()`: an unsupported control point was invoked. -/
  | notImplemented
  /-- The external render pass `renderComponentOrTemplate` raised. -/
  | renderError
  /-- `NULL_INJECTOR.get`: every lookup fails with a not-found error. -/
  | nullInjectorNotFound
deriving DecidableEq, Repr

/-- Modelled from the spec (section 3, RenderContext): the mutable record a
`createViewState(-1, renderer, [])` call site builds — an index marker, the
active renderer capability, and the ordered per-node render data (entries
are kept as their index markers, the only observable the claims use). -/
structure ViewState where
  index : Int
  renderer : Nat
  nodes : List Nat
deriving DecidableEq, Repr

/-- Modelled from the spec (section 3, Host node record): associates the
native surface handle, the render data bound to that element (nullable, as
`hostNode.data` is asserted non-null in diagnostics builds), and the view
state handed to the render pass (`hostNode.view`). -/
structure LElement where
  native : RElement
  data : Option (List Nat)
  view : ViewState
deriving DecidableEq, Repr

/-- The runtime-global mutable state of `component.ts`, made explicit:
`isDirty` (line 171), the current view of the render context stack (owned by
`instructions.ts`), the `NG_HOST_SYMBOL` instance-to-host back-references as
a side table, and a counter allocating fresh instance identities. -/
structure RT where
  isDirty : Bool
  currentView : Option ViewState
  backrefs : List (Inst × LElement)
  nextInst : Nat
deriving DecidableEq, Repr

/-- Immutable component descriptor (`ComponentDef`): lookup tag, renderer
kind token, and the factory `n` — modelled by whether invoking it succeeds
(producing a fresh instance) or raises. -/
structure ComponentDefM where
  tag : String
  rendererType : Nat
  nOk : Bool

/-- The build-time flag and the external collaborators of this core:
`ngDevMode`, the document the host locator queries by tag, the renderer
factory capability `createRenderer(hostNode, rendererType)`, and whether the
opaque external render pass `renderComponentOrTemplate` succeeds. -/
structure Env where
  ngDevMode : Bool
  dom : String → Option RElement
  createRenderer : RElement → Nat → Nat
  renderOk : Bool

/-- `CreateComponentOptionArgs`: the optional renderer factory, the optional
host (a native handle or a lookup tag), and the feature hooks.  Feature
hooks are `(instance, definition) => void` functions used for cross-cutting
instance setup (spec section 4.2); they act on the instance and the native
surface, both outside the modelled runtime state, so they are carried as
opaque tokens.  The optional injector only lands in the returned record. -/
structure Opts where
  rendererFactory : Option (RElement → Nat → Nat)
  host : Option (Sum RElement String)
  injectorPresent : Bool
  features : List Nat

/-- First-match lookup in the back-reference side table, the model of
reading `component[NG_HOST_SYMBOL]`. -/
def findBackref (brs : List (Inst × LElement)) (c : Inst) : Option LElement :=
  match brs with
  | [] => none
  | (k, v) :: rest => if k = c then some v else findBackref rest c

/-- Modelled from the spec (section 4.1): `enter(context) -> previous` makes
`context` current and returns whatever was current before. -/
def enterView (st : RT) (v : ViewState) : Option ViewState × RT :=
  (st.currentView, { st with currentView := some v })

/-- Modelled from the spec (section 4.1): `leave(previous)` restores
`previous` as the current context. -/
def leaveView (st : RT) (old : Option ViewState) : RT :=
  { st with currentView := old }

/-- Modelled from the spec (section 4.2 step 2): a fresh view state record. -/
def createViewState (index : Int) (renderer : Nat) (nodes : List Nat) : ViewState :=
  { index := index, renderer := renderer, nodes := nodes }

/-- Modelled from the spec (sections 2 and 6, Host Locator): resolve a
provided native handle directly, or query the document by lookup tag;
failure to find anything is a `HostResolutionError`. -/
def locateHostElement (env : Env) (hostRef : Sum RElement String) : Except Err RElement :=
  match hostRef with
  | Sum.inl e => Except.ok e
  | Sum.inr tag =>
    match env.dom tag with
    | some e => Except.ok e
    | none => Except.error Err.hostResolution

/-- Modelled from the spec (section 4.2 step 3): create the root native
element entry at index 0 of the current context data and build the host node
record for it. -/
def hostElement (st : RT) (native : RElement) : RT × LElement :=
  let v0 := st.currentView.getD (createViewState (-1) 0 [])
  let v1 := { v0 with nodes := [0] }
  let rec0 : LElement := { native := native, data := some [0], view := v1 }
  ({ st with currentView := some v1 }, rec0)

/-- Modelled from the spec (section 4.2 step 3): store the freshly produced
instance at index 1 of the per-node data and attach the instance-to-host
back-reference. -/
def directive (st : RT) (rec0 : LElement) : RT × Inst :=
  let inst := st.nextInst
  let v0 := st.currentView.getD rec0.view
  let v1 := { v0 with nodes := [0, 1] }
  let rec1 : LElement := { rec0 with data := some [0, 1] }
  ({ st with
      currentView := some v1,
      nextInst := inst + 1,
      backrefs := (inst, rec1) :: st.backrefs },
    inst)

/-- Source lines 160 to 169.  `detectChanges(component)`: in diagnostics
builds assert the component non-null, resolve the back-reference (in
diagnostics builds a missing host node fails — `createError` is modelled
from the spec as raising `NotAHostInstanceError` — and `hostNode.data` is
asserted non-null), then run the external render pass and clear the global
dirty flag.  In optimized builds a null component or missing back-reference
surfaces as the `TypeError` JS raises when `hostNode.view` or the property
of `null` is read. -/
def detectChanges (env : Env) (st : RT) (component : Option Inst) : RT × Except Err Unit :=
  match component with
  | none =>
    if env.ngDevMode then (st, Except.error Err.assertionError)
    else (st, Except.error Err.typeError)
  | some c =>
    match findBackref st.backrefs c with
    | none =>
      if env.ngDevMode then (st, Except.error Err.notAHostInstance)
      else (st, Except.error Err.typeError)
    | some hostNode =>
      if env.ngDevMode && hostNode.data.isNone then (st, Except.error Err.assertionError)
      else if env.renderOk then ({ st with isDirty := false }, Except.ok ())
      else (st, Except.error Err.renderError)

/-- The `try` block of `renderComponent` (source lines 146 to 151): create
the element node at index 0, invoke the factory `componentDef.n()` — which
may raise — and store the instance via `directive`. -/
def bootstrapBody (defn : ComponentDefM) (st : RT) (hostNode : RElement) :
    RT × Except Err Inst :=
  let (st1, rec0) := hostElement st hostNode
  if defn.nOk then
    let (st2, inst) := directive st1 rec0
    (st2, Except.ok inst)
  else
    (st1, Except.error Err.factoryError)

/-- Source lines 137 to 158.  `renderComponent(componentType, opts)`: locate
the host, enter a fresh view state, run the body under a `finally` that
leaves the view (restoring the previous one) on success and failure alike,
apply the feature hooks (instance-level, outside the modelled state), and
run one detection pass before returning the instance. -/
def renderComponent (env : Env) (defn : ComponentDefM) (opts : Opts) (st : RT) :
    RT × Except Err Inst :=
  let rf := opts.rendererFactory.getD env.createRenderer
  match locateHostElement env (opts.host.getD (Sum.inr defn.tag)) with
  | Except.error e => (st, Except.error e)
  | Except.ok hostNode =>
    let entered := enterView st (createViewState (-1) (rf hostNode defn.rendererType) [])
    let body := bootstrapBody defn entered.2 hostNode
    let st3 := leaveView body.1 entered.1
    match body.2 with
    | Except.error e => (st3, Except.error e)
    | Except.ok comp =>
      let after := detectChanges env st3 (some comp)
      match after.2 with
      | Except.error e => (after.1, Except.error e)
      | Except.ok _ => (after.1, Except.ok comp)

/-- Source lines 171 to 179.  `markDirty(component, scheduler)`: assert the
component non-null in diagnostics builds; if the global dirty flag is clear,
set it and hand the scheduler one closure; otherwise do nothing.  The middle
component of the result lists the closures handed to the scheduler during
the call, each represented by the argument it will pass to `detectChanges`
when invoked: the source builds `detectChanges.bind(null, component)`, a
zero-argument closure applying `detectChanges` to `component`. -/
def markDirty (env : Env) (st : RT) (component : Option Inst) :
    RT × List (Option Inst) × Except Err Unit :=
  if env.ngDevMode && component.isNone then (st, [], Except.error Err.assertionError)
  else if st.isDirty then (st, [], Except.ok ())
  else ({ st with isDirty := true }, [component], Except.ok ())

/-- Invoking a closure the scheduler received: `detectChanges.bind(null, c)`
applied to zero arguments runs `detectChanges` on `c`. -/
def runScheduledPass (env : Env) (st : RT) (bound : Option Inst) : RT × Except Err Unit :=
  detectChanges env st bound

/-- A sequence of `markDirty(c, scheduler)` calls on non-null instances,
made while no detection pass runs in between; returns the final state and
the concatenated list of closures handed to the scheduler. -/
def markDirtyList (env : Env) (st : RT) : List Inst → RT × List (Option Inst)
  | [] => (st, [])
  | c :: rest =>
    ((markDirtyList env (markDirty env st (some c)).1 rest).1,
      (markDirty env st (some c)).2.1 ++ (markDirtyList env (markDirty env st (some c)).1 rest).2)

/-- Source lines 181 to 183.  `getHostElement(component)` reads
`component[NG_HOST_SYMBOL].native` with no diagnostics check of its own: a
null component or an unresolved back-reference surfaces as the `TypeError`
JS raises for the property read of `null` or `undefined`. -/
def getHostElement (st : RT) (component : Option Inst) : Except Err RElement :=
  match component with
  | none => Except.error Err.typeError
  | some c =>
    match findBackref st.backrefs c with
    | none => Except.error Err.typeError
    | some hostNode => Except.ok hostNode.native

/-- Source lines 121 to 125.  `NULL_INJECTOR.get` throws for every token. -/
def NULL_INJECTOR_get (_token : Nat) : Except Err Nat :=
  Except.error Err.nullInjectorNotFound

/-- Source lines 76 to 80: `markForCheck` throws `notImplemented()` when
`ngDevMode` is set, otherwise silently returns. -/
def markForCheck (ngDevMode : Bool) : Except Err Unit :=
  if ngDevMode then Except.error Err.notImplemented else Except.ok ()

/-- Source lines 81 to 85: `detach`, same shape as `markForCheck`. -/
def detach (ngDevMode : Bool) : Except Err Unit :=
  if ngDevMode then Except.error Err.notImplemented else Except.ok ()

/-- Source lines 87 to 91: `checkNoChanges`, same shape as `markForCheck`. -/
def checkNoChanges (ngDevMode : Bool) : Except Err Unit :=
  if ngDevMode then Except.error Err.notImplemented else Except.ok ()

/-- Source lines 92 to 96: `reattach`, same shape as `markForCheck`. -/
def reattach (ngDevMode : Bool) : Except Err Unit :=
  if ngDevMode then Except.error Err.notImplemented else Except.ok ()

/-- The destroy-lifecycle state `addDestroyable` installs on the view
handle: the callback list (`null` until the first registration, mirroring
`let destroyFn: Function[] | null = null`) and the `destroyed` flag. -/
structure DestroyRef where
  destroyFn : Option (List Nat)
  destroyed : Bool
deriving DecidableEq, Repr

/-- Source lines 108 to 117, initial state: `obj.destroyed = false` with no
callback list allocated yet. -/
def addDestroyable : DestroyRef :=
  { destroyFn := none, destroyed := false }

/-- The registered callbacks in order (`destroyFn` read through the
`destroyFn && ...` null guard). -/
def DestroyRef.cbs (h : DestroyRef) : List Nat :=
  match h.destroyFn with
  | none => []
  | some fns => fns

/-- Source lines 111 to 114.  `destroy()`: run every registered callback in
registration order (none when the list was never allocated), then set
`destroyed = true`.  Returns the new state and the invocation sequence;
callbacks are identified by the token they were registered under. -/
def destroy (h : DestroyRef) : DestroyRef × List Nat :=
  ({ h with destroyed := true },
    match h.destroyFn with
    | none => []
    | some fns => fns)

/-- Source line 115.  `onDestroy(fn)`: allocate the list on first use and
append the callback. -/
def onDestroy (h : DestroyRef) (cb : Nat) : DestroyRef :=
  { h with destroyFn := some (h.cbs ++ [cb]) }

/-- One interaction with a view handle: a registration or a destroy call. -/
inductive DOp where
  | reg (cb : Nat)
  | destroyCall
deriving DecidableEq, Repr

/-- One step of handle interaction, paired with the callback invocations it
performs (registrations invoke nothing). -/
def stepOp (h : DestroyRef) : DOp → DestroyRef × List Nat
  | DOp.reg cb => (onDestroy h cb, [])
  | DOp.destroyCall => destroy h

/-- Run a sequence of handle interactions, concatenating the callback
invocation traces in order. -/
def runOps (h : DestroyRef) : List DOp → DestroyRef × List Nat
  | [] => (h, [])
  | op :: rest =>
    ((runOps (stepOp h op).1 rest).1,
      (stepOp h op).2 ++ (runOps (stepOp h op).1 rest).2)

/-- JS `Function.prototype.bind` applied with only a receiver argument:
`detectChanges.bind(component)` fixes `this` to the component and
pre-applies no arguments, so invoking the resulting closure with zero
arguments passes `undefined` for the `component` parameter. -/
def bindThisOnly (_thisArg : Inst) : Option Inst :=
  none

/-- The view handle `createViewRef` builds: the argument its bound
`detectChanges` closure will pass to `detectChanges` when invoked, plus the
destroy-lifecycle state from `addDestroyable`.  Its four other control
points are the module-level `markForCheck`, `detach`, `checkNoChanges` and
`reattach` above. -/
structure ViewRefM where
  boundArg : Option Inst
  destroyState : DestroyRef
deriving DecidableEq, Repr

/-- Source lines 70 to 99.  `createViewRef(detectChanges, context)` wraps
the given bound detection closure with `addDestroyable`. -/
def createViewRef (boundArg : Option Inst) : ViewRefM :=
  { boundArg := boundArg, destroyState := addDestroyable }

/-- The `ComponentRef` record `createComponentRef` returns: the instance,
the native element behind `location`, and the view handle (also exposed as
`changeDetectorRef`).  The record-level `destroy` and `onDestroy` of the
source are empty functions and carry no state. -/
structure ComponentRefM where
  componentInstance : Inst
  locationNative : RElement
  hostView : ViewRefM
deriving DecidableEq, Repr

/-- Source lines 54 to 68.  `createComponentRef(componentType, opts)`:
bootstrap via `renderComponent`, then build the view handle from
`detectChanges.bind(component)` — a receiver-only bind — and the location
from `getHostElement(component)`. -/
def createComponentRef (env : Env) (defn : ComponentDefM) (opts : Opts) (st : RT) :
    RT × Except Err ComponentRefM :=
  let (st1, res) := renderComponent env defn opts st
  match res with
  | Except.error e => (st1, Except.error e)
  | Except.ok component =>
    let hostView := createViewRef (bindThisOnly component)
    match getHostElement st1 (some component) with
    | Except.error e => (st1, Except.error e)
    | Except.ok native =>
      (st1, Except.ok
        { componentInstance := component, locationNative := native, hostView := hostView })

/-- Diagnostics-build environment for the concrete scenario of section 8 of
the specification: the document holds one element (handle 7) matching the
tag of the `x-widget` definition, and the external render pass succeeds. -/
def envDev : Env :=
  { ngDevMode := true,
    dom := fun t => if t = "x-widget" then some 7 else none,
    createRenderer := fun _ _ => 0,
    renderOk := true }

/-- The `x-widget` component definition with a succeeding factory. -/
def defnXWidget : ComponentDefM :=
  { tag := "x-widget", rendererType := 0, nOk := true }

/-- Default bootstrap options: no explicit renderer factory, host, injector
or features. -/
def optsDefault : Opts :=
  { rendererFactory := none, host := none, injectorPresent := false, features := [] }

/-- The initial runtime state: flag clear, no current view, no bootstrapped
instance yet. -/
def rt0 : RT :=
  { isDirty := false, currentView := none, backrefs := [], nextInst := 0 }

/-- The runtime state after bootstrapping `x-widget` into `rt0`. -/
def rtBoot : RT :=
  (renderComponent envDev defnXWidget optsDefault rt0).1

/-- The bootstrapped state with the global dirty flag set, as left by a
pending `markDirty`. -/
def rtDirty : RT :=
  { rtBoot with isDirty := true }

/- Helper lemmas on the destroy lifecycle trace semantics. -/

theorem stepOp_reg_eq (h : DestroyRef) (cb : Nat) :
    stepOp h (DOp.reg cb) = (onDestroy h cb, []) := rfl

theorem onDestroy_cbs (h : DestroyRef) (cb : Nat) :
    (onDestroy h cb).cbs = h.cbs ++ [cb] := rfl

theorem onDestroy_destroyed (h : DestroyRef) (cb : Nat) :
    (onDestroy h cb).destroyed = h.destroyed := rfl

theorem destroy_eq (h : DestroyRef) :
    destroy h = ({ h with destroyed := true }, h.cbs) := rfl

theorem runOps_append (h : DestroyRef) (l1 l2 : List DOp) :
    runOps h (l1 ++ l2) =
      ((runOps (runOps h l1).1 l2).1, (runOps h l1).2 ++ (runOps (runOps h l1).1 l2).2) := by
  induction l1 generalizing h with
  | nil => simp [runOps]
  | cons op rest ih => simp [runOps, ih, List.append_assoc]

theorem runOps_regs (h : DestroyRef) (cbs : List Nat) :
    (runOps h (cbs.map DOp.reg)).1.cbs = h.cbs ++ cbs ∧
    (runOps h (cbs.map DOp.reg)).1.destroyed = h.destroyed ∧
    (runOps h (cbs.map DOp.reg)).2 = [] := by
  induction cbs generalizing h with
  | nil => simp [runOps]
  | cons cb rest ih =>
    obtain ⟨h1, h2, h3⟩ := ih (onDestroy h cb)
    refine ⟨?_, ?_, ?_⟩
    · simpa [runOps, stepOp, onDestroy_cbs] using h1
    · simpa [runOps, stepOp, onDestroy_destroyed] using h2
    · simpa [runOps, stepOp] using h3

theorem runOps_destroys (h : DestroyRef) (k : Nat) :
    (runOps h (List.replicate k DOp.destroyCall)).2 = List.flatten (List.replicate k h.cbs) ∧
    (runOps h (List.replicate k DOp.destroyCall)).1.cbs = h.cbs ∧
    (0 < k → (runOps h (List.replicate k DOp.destroyCall)).1.destroyed = true) := by
  induction k generalizing h with
  | zero => simp [runOps]
  | succ n ih =>
    obtain ⟨h1, h2, h3⟩ := ih { h with destroyed := true }
    have hcbs : ({ h with destroyed := true } : DestroyRef).cbs = h.cbs := rfl
    rw [hcbs] at h1 h2
    refine ⟨?_, ?_, fun _ => ?_⟩
    · simpa [runOps, stepOp, destroy, List.replicate_succ, DestroyRef.cbs] using h1
    · simpa [runOps, stepOp, destroy, List.replicate_succ] using h2
    · rcases Nat.eq_zero_or_pos n with hn | hn
      · subst hn
        simp [runOps, stepOp, destroy, List.replicate_succ]
      · simpa [runOps, stepOp, destroy, List.replicate_succ] using h3 hn

theorem runOps_no_destroy (h : DestroyRef) (ops : List DOp)
    (hops : ∀ op ∈ ops, op ≠ DOp.destroyCall) :
    (runOps h ops).2 = [] ∧ (runOps h ops).1.destroyed = h.destroyed := by
  induction ops generalizing h with
  | nil => simp [runOps]
  | cons op rest ih =>
    cases op with
    | reg cb =>
      obtain ⟨h1, h2⟩ := ih (onDestroy h cb) (fun o ho => hops o (List.mem_cons_of_mem _ ho))
      constructor
      · simpa [runOps, stepOp] using h1
      · simpa [runOps, stepOp, onDestroy_destroyed] using h2
    | destroyCall => exact absurd rfl (hops _ (List.mem_cons_self _ _))

/-- C5: each `destroy()` call invokes every callback registered beforehand
exactly once per call, in registration order, and leaves `destroyed = true`;
`k` destroy calls produce the registration list repeated `k` times.  (The
statement covers every `k > 0` at once, so `destroyed` is `true` after any
prefix of the destroy calls as well, by instantiating `k` at that prefix.) -/
theorem c5_destroy_reinvokes_callbacks (cbs : List Nat) (k : Nat) (hk : 0 < k) :
    (runOps addDestroyable (cbs.map DOp.reg ++ List.replicate k DOp.destroyCall)).2 =
      List.flatten (List.replicate k cbs) ∧
    (runOps addDestroyable (cbs.map DOp.reg ++ List.replicate k DOp.destroyCall)).1.destroyed
      = true := by
  obtain ⟨hrc, _, hrt⟩ := runOps_regs addDestroyable cbs
  have hcbs0 : addDestroyable.cbs = [] := rfl
  rw [hcbs0] at hrc
  obtain ⟨hd1, _, hd3⟩ := runOps_destroys (runOps addDestroyable (cbs.map DOp.reg)).1 k
  rw [hrc] at hd1
  constructor
  · rw [runOps_append, hrt, hd1]
    simp
  · rw [runOps_append]
    exact hd3 hk

/-- Witness for C5: one callback (token 10) registered, `destroy()` called
twice: the callback body runs twice and `destroyed` is `true`. -/
theorem c5_witness :
    0 < 2 ∧
    (runOps addDestroyable ([10].map DOp.reg ++ List.replicate 2 DOp.destroyCall)).2
      = [10, 10] ∧
    (runOps addDestroyable ([10].map DOp.reg ++ List.replicate 2 DOp.destroyCall)).1.destroyed
      = true := by
  refine ⟨by decide, ?_, (c5_destroy_reinvokes_callbacks [10] 2 (by decide)).2⟩
  have h := (c5_destroy_reinvokes_callbacks [10] 2 (by decide)).1
  simpa using h

/-- C8: after `destroy()` has run, any further sequence of `onDestroy`
registrations (arbitrarily many, so `onDestroy` stays callable after
destruction) invokes nothing — a callback registered post-destroy is not
invoked at registration time and is never invoked without an additional
`destroy()` call, the only operation that produces invocations — and the
handle stays destroyed. -/
theorem c8_late_registration_not_invoked (h : DestroyRef) (ops : List DOp)
    (hops : ∀ op ∈ ops, op ≠ DOp.destroyCall) :
    (runOps (destroy h).1 ops).2 = [] ∧
    (runOps (destroy h).1 ops).1.destroyed = true := by
  obtain ⟨h1, h2⟩ := runOps_no_destroy (destroy h).1 ops hops
  exact ⟨h1, h2.trans rfl⟩

/-- Witness for C8: destroy a fresh handle, then register callbacks 5 and 6:
no invocation happens and the handle stays destroyed. -/
theorem c8_witness :
    (∀ op ∈ [DOp.reg 5, DOp.reg 6], op ≠ DOp.destroyCall) ∧
    (runOps (destroy addDestroyable).1 [DOp.reg 5, DOp.reg 6]).2 = [] ∧
    (runOps (destroy addDestroyable).1 [DOp.reg 5, DOp.reg 6]).1.destroyed = true := by
  refine ⟨by decide, ?_, ?_⟩
  · exact (c8_late_registration_not_invoked addDestroyable [DOp.reg 5, DOp.reg 6] (by decide)).1
  · exact (c8_late_registration_not_invoked addDestroyable [DOp.reg 5, DOp.reg 6] (by decide)).2

/-- C10: in diagnostics builds (`ngDevMode` set) each of the four view
handle control points `markForCheck`, `detach`, `checkNoChanges` and
`reattach` deterministically fails with the not-implemented error rather
than silently doing nothing. -/
theorem c10_control_points_notImplemented :
    markForCheck true = Except.error Err.notImplemented ∧
    detach true = Except.error Err.notImplemented ∧
    checkNoChanges true = Except.error Err.notImplemented ∧
    reattach true = Except.error Err.notImplemented :=
  ⟨rfl, rfl, rfl, rfl⟩

/- Helper lemmas on the dirty scheduler and the change detector. -/

theorem markDirty_some (env : Env) (st : RT) (c : Inst) :
    markDirty env st (some c) =
      (if st.isDirty then (st, [], Except.ok ())
       else ({ st with isDirty := true }, [some c], Except.ok ())) := by
  simp [markDirty]

theorem markDirtyList_dirty (env : Env) (st : RT) (cs : List Inst) (h : st.isDirty = true) :
    markDirtyList env st cs = (st, []) := by
  induction cs with
  | nil => rfl
  | cons c rest ih =>
    have hmd : markDirty env st (some c) = (st, [], Except.ok ()) := by
      rw [markDirty_some, if_pos h]
    simp [markDirtyList, hmd, ih]

theorem detectChanges_currentView (env : Env) (st : RT) (c : Option Inst) :
    (detectChanges env st c).1.currentView = st.currentView := by
  unfold detectChanges
  split
  · split <;> rfl
  · split
    · split <;> rfl
    · split
      · rfl
      · split <;> rfl

theorem detectChanges_backrefs (env : Env) (st : RT) (c : Option Inst) :
    (detectChanges env st c).1.backrefs = st.backrefs := by
  unfold detectChanges
  split
  · split <;> rfl
  · split
    · split <;> rfl
    · split
      · rfl
      · split <;> rfl

/-- C3: with the dirty flag clear, a run of `markDirty` calls in one
undrained dirty window hands the scheduler exactly one closure — the one of
the first call, which will pass the first instance to `detectChanges` when
invoked — and the calls after the first change nothing: the final state is
the initial one with only the dirty flag set. -/
theorem c3_markDirty_schedules_once (env : Env) (st : RT) (c : Inst) (cs : List Inst)
    (h : st.isDirty = false) :
    markDirtyList env st (c :: cs) = ({ st with isDirty := true }, [some c]) := by
  have hmd : markDirty env st (some c) = ({ st with isDirty := true }, [some c], Except.ok ()) := by
    rw [markDirty_some, if_neg]
    rw [h]
    exact Bool.false_ne_true
  have hrest := markDirtyList_dirty env { st with isDirty := true } cs rfl
  simp [markDirtyList, hmd, hrest]

/-- Witness for C3: three `markDirty` calls from the clean bootstrapped
state schedule exactly one pass, bound to the first instance. -/
theorem c3_witness :
    rt0.isDirty = false ∧
    markDirtyList envDev rt0 [0, 1, 2] = ({ rt0 with isDirty := true }, [some 0]) :=
  ⟨rfl, c3_markDirty_schedules_once envDev rt0 0 [1, 2] rfl⟩

/-- C4: whenever `detectChanges` completes without raising, the global dirty
flag is `false` afterwards, whatever its prior value and whichever caller
(scheduled closure or manual call) triggered the pass. -/
theorem c4_detectChanges_clears_dirty (env : Env) (st st2 : RT) (component : Option Inst)
    (h : detectChanges env st component = (st2, Except.ok ())) :
    st2.isDirty = false := by
  unfold detectChanges at h
  split at h
  · split at h <;> simp_all
  · split at h
    · split at h <;> simp_all
    · split at h
      · simp_all
      · split at h
        · injection h with h1 h2
          rw [← h1]
        · simp_all

/-- Witness for C4: a successful pass on the bootstrapped instance from a
dirty state ends with the flag clear. -/
theorem c4_witness :
    (detectChanges envDev rtDirty (some 0)).2 = Except.ok () ∧
    (detectChanges envDev rtDirty (some 0)).1.isDirty = false :=
  ⟨rfl, c4_detectChanges_clears_dirty envDev rtDirty
    (detectChanges envDev rtDirty (some 0)).1 (some 0) rfl⟩

/-- C6: when the external render pass raises inside `detectChanges`, the
whole runtime state — the dirty flag in particular — is left unchanged; so
after a scheduled pass fails while the flag is set, every later `markDirty`
call returns with no state change and hands the scheduler nothing. -/
theorem c6_failed_pass_keeps_dirty (env : Env) (st : RT) (c : Option Inst)
    (hr : env.renderOk = false) :
    (detectChanges env st c).1 = st ∧
    (st.isDirty = true → ∀ c2 : Inst,
      markDirty env (detectChanges env st c).1 (some c2) = (st, [], Except.ok ())) := by
  have h1 : (detectChanges env st c).1 = st := by
    unfold detectChanges
    split
    · split <;> rfl
    · split
      · split <;> rfl
      · split
        · rfl
        · split
          · simp_all
          · rfl
  refine ⟨h1, fun hd c2 => ?_⟩
  rw [h1, markDirty_some, if_pos hd]

/-- Witness for C6: with a failing render pass and the flag set, the state
survives `detectChanges` unchanged and a later `markDirty` does nothing. -/
theorem c6_witness :
    ({ envDev with renderOk := false } : Env).renderOk = false ∧
    rtDirty.isDirty = true ∧
    (detectChanges { envDev with renderOk := false } rtDirty (some 0)).1 = rtDirty ∧
    markDirty { envDev with renderOk := false }
        (detectChanges { envDev with renderOk := false } rtDirty (some 0)).1 (some 1) =
      (rtDirty, [], Except.ok ()) :=
  ⟨rfl, rfl,
    (c6_failed_pass_keeps_dirty { envDev with renderOk := false } rtDirty (some 0) rfl).1,
    (c6_failed_pass_keeps_dirty { envDev with renderOk := false } rtDirty (some 0) rfl).2 rfl 1⟩

/-- C2: `renderComponent` restores the previously current render context on
every exit path — host resolution failure, factory failure (the `finally`
block still leaves the view), and success through the first detection pass —
so the context stack ends exactly as deep as before the call. -/
theorem c2_renderComponent_restores_context (env : Env) (defn : ComponentDefM) (opts : Opts)
    (st : RT) :
    (renderComponent env defn opts st).1.currentView = st.currentView := by
  unfold renderComponent
  split
  · rfl
  · dsimp only
    split
    · simp [leaveView, enterView]
    · split <;> simp [detectChanges_currentView, leaveView, enterView]

theorem leaveView_backrefs (st : RT) (old : Option ViewState) :
    (leaveView st old).backrefs = st.backrefs := rfl

theorem bootstrapBody_err (defn : ComponentDefM) (st : RT) (hostNode : RElement)
    (h : defn.nOk = false) :
    (bootstrapBody defn st hostNode).2 = Except.error Err.factoryError := by
  simp [bootstrapBody, h]

theorem bootstrapBody_ok_native (defn : ComponentDefM) (st : RT) (hostNode : RElement)
    (h : defn.nOk = true) :
    (bootstrapBody defn st hostNode).2 = Except.ok st.nextInst ∧
    findBackref (bootstrapBody defn st hostNode).1.backrefs st.nextInst =
      some { native := hostNode, data := some [0, 1],
             view := { st.currentView.getD (createViewState (-1) 0 []) with nodes := [0] } } := by
  constructor
  · simp [bootstrapBody, hostElement, directive, h]
  · simp [bootstrapBody, hostElement, directive, findBackref, h]

/-- C9: when `renderComponent` returns an instance, `getHostElement` on that
instance returns exactly the native handle the host locator resolved for the
bootstrap call (the provided host, or the one found for the definition
tag). -/
theorem c9_getHostElement_returns_host (env : Env) (defn : ComponentDefM) (opts : Opts)
    (st st2 : RT) (inst : Inst)
    (h : renderComponent env defn opts st = (st2, Except.ok inst)) :
    getHostElement st2 (some inst) =
      locateHostElement env (opts.host.getD (Sum.inr defn.tag)) := by
  unfold renderComponent at h
  split at h
  · simp_all
  next hostNode heq =>
    rw [heq]
    dsimp only at h
    split at h
    · simp_all
    next comp heq2 =>
      split at h
      · simp_all
      next u heq3 =>
        injection h with hst hok
        injection hok with hcomp
        cases hnok : defn.nOk with
        | false =>
          rw [bootstrapBody_err defn _ hostNode hnok] at heq2
          exact absurd heq2 (by simp)
        | true =>
          obtain ⟨hb2, hbfind⟩ := bootstrapBody_ok_native defn
            (enterView st (createViewState (-1)
              ((opts.rendererFactory.getD env.createRenderer) hostNode defn.rendererType) [])).2
            hostNode hnok
          rw [hb2] at heq2
          injection heq2 with hcomp2
          have hbr : st2.backrefs =
              (bootstrapBody defn
                (enterView st (createViewState (-1)
                  ((opts.rendererFactory.getD env.createRenderer) hostNode defn.rendererType)
                  [])).2 hostNode).1.backrefs := by
            rw [← hst]
            rw [detectChanges_backrefs, leaveView_backrefs]
          rw [← hcomp, ← hcomp2]
          simp only [getHostElement]
          rw [hbr, hbfind]

/-- Witness for C9: the concrete `x-widget` scenario of section 8 — the
bootstrap succeeds and `getHostElement` returns handle 7, the element the
locator resolved for the tag. -/
theorem c9_witness :
    renderComponent envDev defnXWidget optsDefault rt0 = (rtBoot, Except.ok 0) ∧
    getHostElement rtBoot (some 0) = Except.ok 7 :=
  ⟨rfl, (c9_getHostElement_returns_host envDev defnXWidget optsDefault rt0 rtBoot 0 rfl).trans rfl⟩

/- Claim C1 concerns source line 57, `detectChanges.bind(component)`:
`Function.prototype.bind` with a single argument only fixes the receiver
(`this`) and pre-applies nothing, so the closure stored in the view handle
invokes `detectChanges(undefined)`; line 177 shows the intended form,
`detectChanges.bind(null, component)`. -/

/-- C1: bootstrapping the concrete `x-widget` scenario succeeds, and the
view handle built by `createComponentRef` carries a detection closure whose
bound argument is `bindThisOnly`, i.e. `undefined`: invoking
`hostView.detectChanges()` runs `detectChanges` on `none` and fails the
non-null assertion of the diagnostics build, while a correctly bound call
`detectChanges(instance)` on the same state succeeds.  The handle is
therefore not bound to the bootstrapped instance. -/
theorem c1_hostView_detect_invokes_undefined :
    (createComponentRef envDev defnXWidget optsDefault rt0).2 =
      Except.ok
        { componentInstance := 0, locationNative := 7,
          hostView := { boundArg := bindThisOnly 0, destroyState := addDestroyable } } ∧
    bindThisOnly 0 = none ∧
    (detectChanges envDev (createComponentRef envDev defnXWidget optsDefault rt0).1
        (bindThisOnly 0)).2 = Except.error Err.assertionError ∧
    (detectChanges envDev (createComponentRef envDev defnXWidget optsDefault rt0).1
        (some 0)).2 = Except.ok () :=
  ⟨rfl, rfl, rfl, rfl⟩

/- Claim C7 concerns `getHostElement` on a value never bootstrapped through
this runtime.  The source function performs no diagnostics check at all:
it reads `.native` off the unresolved back-reference, which is a plain
`TypeError`, not the `NotAHostInstanceError`-style failure the precondition
of `detectChanges` raises in diagnostics builds. -/

/-- Counterexample for C7: in the diagnostics environment, instance 0 was
never bootstrapped into `rt0`; `getHostElement` fails with the undefined
dereference `TypeError`, while the `detectChanges` precondition fails with
the not-a-host-instance diagnostic — two different failures. -/
theorem c7_counterexample :
    getHostElement rt0 (some 0) = Except.error Err.typeError ∧
    (detectChanges envDev rt0 (some 0)).2 = Except.error Err.notAHostInstance ∧
    Err.typeError ≠ Err.notAHostInstance :=
  ⟨rfl, rfl, by decide⟩

/-- C7 amended: for a value whose back-reference does not resolve,
`getHostElement` fails — in every build, there being no diagnostics guard in
it — with the raw undefined-dereference `TypeError`, not with the
`NotAHostInstanceError`-style diagnostic of the `detectChanges`
precondition. -/
theorem c7_getHostElement_typeError (st : RT) (c : Inst)
    (h : findBackref st.backrefs c = none) :
    getHostElement st (some c) = Except.error Err.typeError := by
  simp only [getHostElement]
  rw [h]

/-- Witness for C7 amended: the unbootstrapped instance 0 in the initial
state. -/
theorem c7_witness :
    findBackref rt0.backrefs 0 = none ∧
    getHostElement rt0 (some 0) = Except.error Err.typeError :=
  ⟨rfl, c7_getHostElement_typeError rt0 0 rfl⟩

end Render3
